import Mathlib

/-!
# FloraLens — verification of the provider-selection and orchestration layer

Shallow embedding of the FloraLens plant-identification client
(`src/types.ts`, `src/services/geminiService.ts`,
`src/services/mediaPipeService.ts`, `src/App.tsx`,
`src/components/ChatBot.tsx`).

External collaborators (the cloud provider, the on-device language model,
the on-device image classifier, the JavaScript `JSON.parse` runtime) are
passed in as explicit parameters: each embedded operation is a pure
function of the collaborator behaviours, returning a trace that records
the result together with how many times each collaborator was invoked.
JavaScript exceptions are modelled with `Except String` (the error
message); a JavaScript runtime object whose properties may be absent
(such as the result of `JSON.parse` cast with `as PlantInfo`, a cast that
is erased at runtime) is modelled with `Option`-valued fields.
-/

namespace FloraLens

/-- Availability tiers reported by `window.ai.languageModel.capabilities()`
(`src/types.ts`): "readily", "after-download" or "no". -/
inductive Availability
  | readily
  | afterDownload
  | no
deriving DecidableEq, Repr

/-- Runtime shape of the `careInstructions` sub-object of a parsed plant
record. TypeScript interfaces are erased at runtime, so each property of
the JavaScript object may be absent: absent is `none`. -/
structure CareInstructions where
  water : Option String
  light : Option String
  soil : Option String
  humidity : Option String
  temperature : Option String
deriving DecidableEq, Repr

/-- Runtime shape of a parsed `PlantInfo` object (`src/types.ts`). Each
property may be absent at runtime (`none`), since `JSON.parse(...) as
PlantInfo` performs no checking. -/
structure PlantInfo where
  commonName : Option String
  scientificName : Option String
  description : Option String
  careInstructions : Option CareInstructions
  petFriendly : Option Bool
  funFact : Option String
deriving DecidableEq, Repr

/-- All five care sub-fields present (non-null). -/
def CareInstructions.complete (c : CareInstructions) : Bool :=
  c.water.isSome && c.light.isSome && c.soil.isSome &&
    c.humidity.isSome && c.temperature.isSome

/-- All six top-level fields present (non-null), with the five care
sub-fields present as well. -/
def PlantInfo.complete (p : PlantInfo) : Bool :=
  p.commonName.isSome && p.scientificName.isSome && p.description.isSome &&
    (match p.careInstructions with
     | some c => c.complete
     | none => false) &&
    p.petFriendly.isSome && p.funFact.isSome

/-- A chat turn (`ChatMessage` in `src/types.ts`). -/
inductive Role
  | user
  | model
deriving DecidableEq, Repr

/-- `ChatMessage` from `src/types.ts`: role, text, `Date.now()` millis. -/
structure ChatMessage where
  role : Role
  text : String
  timestamp : Nat
deriving DecidableEq, Repr

/-! ## Capability probe (`checkLocalAICapability`, geminiService.ts)

The host environment is summarised by one parameter:
`none` models `typeof window === 'undefined' || !window.ai`;
`some (.error e)` models `window.ai.languageModel.capabilities()`
throwing; `some (.ok a)` models it resolving with `available = a`. -/

/-- Embedding of `checkLocalAICapability`: returns `true` only when the
probe resolves with the `'readily'` tier; a missing `window.ai` feature,
any other tier, and a thrown query all yield `false`. Totality of this
function is the embedding of "must not throw". -/
def checkLocalAICapability (env : Option (Except String Availability)) : Bool :=
  match env with
  | none => false
  | some (.error _) => false
  | some (.ok a) => a = Availability.readily

/-! ## JavaScript string helpers

`identifyPlantLocal` cleans its raw model output by deleting every
occurrence of the pattern "```json", then every occurrence of "```",
then trimming whitespace. `String.prototype.replace` with a global
literal pattern deletes every non-overlapping occurrence, scanning left
to right; we model it on character lists with fuel (at least one unit of
fuel per character consumed, so `cs.length` fuel always suffices for a
non-empty pattern). -/

/-- If `pat` is a literal prefix of `cs`, the remainder after it. -/
def stripPrefixCh : List Char → List Char → Option (List Char)
  | [], cs => some cs
  | _ :: _, [] => none
  | p :: ps, c :: cs => if c = p then stripPrefixCh ps cs else none

/-- Delete every non-overlapping occurrence of `pat`, left to right. -/
def replaceAllCh (pat : List Char) : Nat → List Char → List Char
  | _, [] => []
  | 0, cs => cs
  | fuel + 1, c :: rest =>
    match stripPrefixCh pat (c :: rest) with
    | some rest2 => replaceAllCh pat fuel rest2
    | none => c :: replaceAllCh pat fuel rest

/-- JavaScript global-regex replace of the literal `pat` by the empty
string. -/
def jsReplaceAll (s pat : String) : String :=
  String.mk (replaceAllCh pat.toList s.toList.length s.toList)

/-- JavaScript `String.prototype.trim` (whitespace from both ends). -/
def jsTrim (s : String) : String :=
  String.mk
    (((s.toList.dropWhile Char.isWhitespace).reverse.dropWhile
        Char.isWhitespace).reverse)

/-- The clean-up line of `identifyPlantLocal`: delete every "```json",
then every "```", then trim. -/
def stripJsonFences (result : String) : String :=
  jsTrim (jsReplaceAll (jsReplaceAll result "```json") "```")

/-! ## Cloud identification (`identifyPlant`, geminiService.ts) -/

/-- The JSON response schema sub-language used by the cloud request
configuration (`Type.OBJECT` / `Type.STRING` / `Type.BOOLEAN` with
`properties` and `required`). -/
inductive Schema
  | string
  | boolean
  | object (properties : List (String × Schema)) (required : List String)
deriving Repr

/-- The `required` list of an object schema. -/
def Schema.requiredFields : Schema → List String
  | .object _ required => required
  | _ => []

/-- Look up a property schema of an object schema by name. -/
def Schema.prop (s : Schema) (name : String) : Option Schema :=
  match s with
  | .object properties _ =>
    match properties.lookup name with
    | some sub => some sub
    | none => none
  | _ => none

/-- The `careInstructions` sub-schema of the cloud `responseSchema`
(`identifyPlant`, geminiService.ts). -/
def careInstructionsSchema : Schema :=
  .object
    [("water", .string), ("light", .string), ("soil", .string),
     ("humidity", .string), ("temperature", .string)]
    ["water", "light", "soil", "humidity", "temperature"]

/-- The `responseSchema` of the cloud identification request
(`identifyPlant`, geminiService.ts). -/
def plantResponseSchema : Schema :=
  .object
    [("commonName", .string), ("scientificName", .string),
     ("description", .string), ("petFriendly", .boolean),
     ("funFact", .string), ("careInstructions", careInstructionsSchema)]
    ["commonName", "scientificName", "description", "careInstructions",
     "petFriendly", "funFact"]

/-- Embedding of the cloud `identifyPlant`. Parameters model the
collaborators: `apiKey` is `process.env.API_KEY` (`none` = unset, which
makes `getAiClient` throw); `providerText` is the outcome of
`ai.models.generateContent` (`.error` = transport/auth throw, `.ok t`
with `t` the `response.text` field, `none` = absent); `jsonParse` is the
JavaScript `JSON.parse` runtime followed by the erased `as PlantInfo`
cast (`.error` = SyntaxError throw). A falsy `response.text` (absent or
empty) raises "No response text from API"; the catch block logs and
rethrows, so every failure propagates unmodified. -/
def identifyPlant (apiKey : Option String)
    (providerText : Except String (Option String))
    (jsonParse : String → Except String PlantInfo)
    (base64Image mimeType : String) : Except String PlantInfo :=
  match apiKey with
  | none => .error "API_KEY is not defined in the environment"
  | some _ =>
    let _ := (base64Image, mimeType)
    match providerText with
    | .error e => .error e
    | .ok none => .error "No response text from API"
    | .ok (some text) =>
      if text = "" then .error "No response text from API"
      else jsonParse text

/-! ## Offline identification (`identifyPlantLocal`, geminiService.ts) -/

/-- The system prompt of the one-shot generation session created by
`identifyPlantLocal`. -/
def localIdSystemPrompt : String :=
  "You are a botanist. You receive a list of possible plant image labels. Identify the most likely plant and generate a detailed JSON response."

/-- The prompt template of `identifyPlantLocal`, instantiated with the
joined label string (template-literal whitespace preserved). -/
def localIdPrompt (labelsStr : String) : String :=
  "The image classifier detected these objects: \"" ++ labelsStr ++
  "\". \n  Based on this, assume the most likely plant.\n  Provide a strictly valid JSON object with the following fields:\n  \x7b\n    \"commonName\": \"string\",\n    \"scientificName\": \"string\",\n    \"description\": \"short description\",\n    \"petFriendly\": boolean,\n    \"funFact\": \"string\",\n    \"careInstructions\": \x7b\n      \"water\": \"string\",\n      \"light\": \"string\",\n      \"soil\": \"string\",\n      \"humidity\": \"string\",\n      \"temperature\": \"string\"\n    \x7d\n  \x7d\n  Do not include markdown formatting. Return only the JSON."

/-- Observable trace of one `identifyPlantLocal` call: its outcome, how
many sessions were created, which prompts were sent to the local model,
and how many times `session.destroy()` ran. -/
structure LocalIdTrace where
  result : Except String PlantInfo
  sessionsCreated : Nat
  prompts : List String
  destroys : Nat
deriving Repr

/-- Embedding of `identifyPlantLocal`. `windowAi` models the presence of
`window.ai`; `createSession` the outcome of
`window.ai.languageModel.create` (the session handle itself is
represented by `sessionPrompt`, the behaviour of `session.prompt`);
`jsonParse` is the JavaScript `JSON.parse` runtime followed by the
erased `as PlantInfo` cast. The raw model text is cleaned with
`stripJsonFences` before parsing; the catch block destroys the session
and raises "Could not generate plant details offline."; the success path
destroys the session and returns the parsed object with no further
validation. -/
def identifyPlantLocal (windowAi : Bool) (createSession : Except String Unit)
    (sessionPrompt : String → Except String String)
    (jsonParse : String → Except String PlantInfo)
    (detectedLabels : List String) : LocalIdTrace :=
  if windowAi = false then
    { result := .error "Local AI is required for offline mode to generate plant details.",
      sessionsCreated := 0, prompts := [], destroys := 0 }
  else
    match createSession with
    | .error e =>
      { result := .error e, sessionsCreated := 0, prompts := [], destroys := 0 }
    | .ok _ =>
      let labelsStr := String.intercalate ", " detectedLabels
      let prompt := localIdPrompt labelsStr
      match sessionPrompt prompt with
      | .error _ =>
        { result := .error "Could not generate plant details offline.",
          sessionsCreated := 1, prompts := [prompt], destroys := 1 }
      | .ok result =>
        let jsonStr := stripJsonFences result
        match jsonParse jsonStr with
        | .error _ =>
          { result := .error "Could not generate plant details offline.",
            sessionsCreated := 1, prompts := [prompt], destroys := 1 }
        | .ok data =>
          { result := .ok data, sessionsCreated := 1, prompts := [prompt],
            destroys := 1 }

/-! ## Cloud chat (`sendChatMessage`, geminiService.ts) -/

/-- Embedding of `sendChatMessage` (cloud chat strategy). `apiKey` as in
`identifyPlant`; `providerReply` is the outcome of
`chat.sendMessage` (`.ok t` with `t` the `result.text`, `none` =
absent). A falsy reply text is replaced by the designed fallback string;
provider throws are logged and rethrown. -/
def sendChatMessage (apiKey : Option String)
    (providerReply : Except String (Option String)) : Except String String :=
  match apiKey with
  | none => .error "API_KEY is not defined in the environment"
  | some _ =>
    match providerReply with
    | .error e => .error e
    | .ok none => .ok "I\x27m sorry, I couldn\x27t generate a response."
    | .ok (some s) =>
      if s = "" then .ok "I\x27m sorry, I couldn\x27t generate a response."
      else .ok s

/-! ## Vision classifier adapter (`classifyImageOffline`,
mediaPipeService.ts) -/

/-- Embedding of `classifyImageOffline`. `classifierLoaded` models the
module-level `imageClassifier` being non-null; `classifications` models
`result.classifications`, each entry the list of category names of one
classification head. Returns the category names of the first head when
both it and its category list are non-empty, otherwise the empty list;
throws when the model has not finished loading. -/
def classifyImageOffline (classifierLoaded : Bool)
    (classifications : List (List String)) : Except String (List String) :=
  if classifierLoaded = false then
    .error "Offline recognition model not loaded yet"
  else
    match classifications with
    | [] => .ok []
    | categories :: _ => .ok categories

/-! ## Orchestrator / mode policy (`handleFileSelect`, App.tsx)

We embed the analysis stage of `handleFileSelect` — the try/catch/finally
block that selects a backend and runs it — starting after file
preparation (HEIC conversion and object-URL creation succeed and the
temporary image has loaded). `isOnline` is the React state mirroring the
connectivity events, read at request time. -/

/-- The user-facing error copy of the offline branch of
`handleFileSelect`. -/
def offlineFailMsg : String :=
  "Offline identification failed. Try a clearer photo or reconnect to internet."

/-- The user-facing error copy of the online branch of
`handleFileSelect`. -/
def onlineFailMsg : String :=
  "Failed to identify the plant. Please try another clear photo."

/-- Observable trace of the analysis stage of one `handleFileSelect`
call: the outcome of the try block (before the catch maps it to
user-facing copy), the resulting `plantData` and `error` states, the
`isOfflineAnalysis` flag, and the number of invocations of each
collaborator. -/
structure AnalyzeTrace where
  tryResult : Except String PlantInfo
  plantData : Option PlantInfo
  errorShown : Option String
  isOfflineAnalysis : Bool
  cloudCalls : Nat
  classifyCalls : Nat
  localSessionsCreated : Nat
  localPrompts : List String
  localDestroys : Nat
deriving Repr

/-- Embedding of the analysis stage of `handleFileSelect` (App.tsx).
Online branch: read the file as base64 and call the cloud
`identifyPlant`; the classifier and the local model are never touched.
Offline branch: set `isOfflineAnalysis`, classify the image, throw
"Could not identify object in offline mode." when the label list is
empty, otherwise call `identifyPlantLocal` with the labels. Any throw is
caught and mapped to user-facing copy chosen by `isOnline`. -/
def handleFileSelectAnalyze (isOnline : Bool)
    (apiKey : Option String) (cloudText : Except String (Option String))
    (cloudJsonParse : String → Except String PlantInfo)
    (base64Content mimeType : String)
    (classifierLoaded : Bool) (classifications : List (List String))
    (windowAi : Bool) (createSession : Except String Unit)
    (sessionPrompt : String → Except String String)
    (localJsonParse : String → Except String PlantInfo) : AnalyzeTrace :=
  if isOnline then
    match identifyPlant apiKey cloudText cloudJsonParse base64Content mimeType with
    | .ok data =>
      { tryResult := .ok data, plantData := some data, errorShown := none,
        isOfflineAnalysis := false, cloudCalls := 1, classifyCalls := 0,
        localSessionsCreated := 0, localPrompts := [], localDestroys := 0 }
    | .error e =>
      { tryResult := .error e, plantData := none,
        errorShown := some onlineFailMsg, isOfflineAnalysis := false,
        cloudCalls := 1, classifyCalls := 0, localSessionsCreated := 0,
        localPrompts := [], localDestroys := 0 }
  else
    match classifyImageOffline classifierLoaded classifications with
    | .error e =>
      { tryResult := .error e, plantData := none,
        errorShown := some offlineFailMsg, isOfflineAnalysis := true,
        cloudCalls := 0, classifyCalls := 1, localSessionsCreated := 0,
        localPrompts := [], localDestroys := 0 }
    | .ok labels =>
      if labels.length = 0 then
        { tryResult := .error "Could not identify object in offline mode.",
          plantData := none, errorShown := some offlineFailMsg,
          isOfflineAnalysis := true, cloudCalls := 0, classifyCalls := 1,
          localSessionsCreated := 0, localPrompts := [], localDestroys := 0 }
      else
        let t := identifyPlantLocal windowAi createSession sessionPrompt
          localJsonParse labels
        match t.result with
        | .ok data =>
          { tryResult := .ok data, plantData := some data, errorShown := none,
            isOfflineAnalysis := true, cloudCalls := 0, classifyCalls := 1,
            localSessionsCreated := t.sessionsCreated,
            localPrompts := t.prompts, localDestroys := t.destroys }
        | .error e =>
          { tryResult := .error e, plantData := none,
            errorShown := some offlineFailMsg, isOfflineAnalysis := true,
            cloudCalls := 0, classifyCalls := 1,
            localSessionsCreated := t.sessionsCreated,
            localPrompts := t.prompts, localDestroys := t.destroys }

/-! ## Chat send (`handleSend`, ChatBot.tsx) -/

/-- The static reply of `handleSend` when the local session fails while
offline. -/
def localFailOfflineMsg : String :=
  "I\x27m having trouble processing that offline. Please reconnect to the internet."

/-- The static reply of `handleSend` when neither the local model is in
use nor connectivity is available at dispatch time. -/
def noCloudOfflineMsg : String :=
  "I cannot connect to the cloud right now. Please check your internet connection."

/-- The reply appended by the outer catch of `handleSend`. -/
def chatErrorMsg : String :=
  "Sorry, I seem to have lost my connection to the garden. Please try again shortly."

/-- Observable trace of one `handleSend` call: the messages appended to
the history (in order), the prompts sent to the live local session, and
the (history, message) arguments of each cloud `sendChatMessage`
invocation. -/
structure SendTrace where
  appended : List ChatMessage
  localPromptsSent : List String
  cloudSends : List (List ChatMessage × String)
deriving Repr

/-- Embedding of `handleSend` (ChatBot.tsx). Guards: a blank input or a
pending send returns at once; so does being offline with the local
capability flag down. Otherwise the user turn is appended and dispatch
runs: with the capability flag up and a live session, the local model is
prompted, falling back on throw to the cloud when online (once, with the
pre-send history and the same message) and to a static apology when
offline; without a usable local session, the cloud is used when online
and a static offline message otherwise. The outer catch appends
`chatErrorMsg` when the cloud call throws. `tUser` and `tModel` are the
two `Date.now()` readings. -/
def handleSend (input : String) (isLoading isOnline isLocalAI : Bool)
    (localSession : Option (String → Except String String))
    (apiKey : Option String) (cloudReply : Except String (Option String))
    (history : List ChatMessage) (tUser tModel : Nat) : SendTrace :=
  if jsTrim input = "" || isLoading then
    { appended := [], localPromptsSent := [], cloudSends := [] }
  else if isOnline = false && isLocalAI = false then
    { appended := [], localPromptsSent := [], cloudSends := [] }
  else
    let userMsg : ChatMessage := { role := .user, text := input, timestamp := tUser }
    match isLocalAI, localSession with
    | true, some session =>
      match session input with
      | .ok r =>
        { appended := [userMsg, { role := .model, text := r, timestamp := tModel }],
          localPromptsSent := [input], cloudSends := [] }
      | .error _ =>
        if isOnline then
          match sendChatMessage apiKey cloudReply with
          | .ok r =>
            { appended := [userMsg, { role := .model, text := r, timestamp := tModel }],
              localPromptsSent := [input], cloudSends := [(history, input)] }
          | .error _ =>
            { appended := [userMsg,
                { role := .model, text := chatErrorMsg, timestamp := tModel }],
              localPromptsSent := [input], cloudSends := [(history, input)] }
        else
          { appended := [userMsg,
              { role := .model, text := localFailOfflineMsg, timestamp := tModel }],
            localPromptsSent := [input], cloudSends := [] }
    | _, _ =>
      if isOnline then
        match sendChatMessage apiKey cloudReply with
        | .ok r =>
          { appended := [userMsg, { role := .model, text := r, timestamp := tModel }],
            localPromptsSent := [], cloudSends := [(history, input)] }
        | .error _ =>
          { appended := [userMsg,
              { role := .model, text := chatErrorMsg, timestamp := tModel }],
            localPromptsSent := [], cloudSends := [(history, input)] }
      else
        { appended := [userMsg,
            { role := .model, text := noCloudOfflineMsg, timestamp := tModel }],
          localPromptsSent := [], cloudSends := [] }

/-! ## Concrete collaborator instances used by witnesses and
counterexamples -/

/-- The runtime object produced by parsing the empty JSON object: every
property absent. -/
def emptyPlantInfo : PlantInfo :=
  { commonName := none, scientificName := none, description := none,
    careInstructions := none, petFriendly := none, funFact := none }

/-- The JavaScript `JSON.parse` runtime (with the erased `as PlantInfo`
cast) observed at the input "\x7b\x7d": parsing the empty JSON object
succeeds and yields an object with every property absent; other inputs
are not needed and are modelled as a SyntaxError throw. -/
def jsonParseEmptyObj : String → Except String PlantInfo :=
  fun s =>
    if s = "\x7b\x7d" then Except.ok emptyPlantInfo
    else Except.error "SyntaxError: Unexpected token"

/-- A concrete well-formed plant-record JSON text (unfenced). -/
def roseJson : String :=
  "\x7b\"commonName\": \"Rose\", \"scientificName\": \"Rosa rubiginosa\", \"description\": \"A woody perennial flowering plant.\", \"petFriendly\": true, \"funFact\": \"Rose hips are rich in vitamin C.\", \"careInstructions\": \x7b\"water\": \"Weekly\", \"light\": \"Full sun\", \"soil\": \"Loamy\", \"humidity\": \"Moderate\", \"temperature\": \"15-25C\"\x7d\x7d"

/-- `roseJson` wrapped in Markdown code fences, as a local model may
return it. -/
def fencedRoseJson : String :=
  "```json\n" ++ roseJson ++ "\n```"

/-- The runtime object produced by `JSON.parse` at `roseJson`. -/
def roseRecord : PlantInfo :=
  { commonName := some "Rose", scientificName := some "Rosa rubiginosa",
    description := some "A woody perennial flowering plant.",
    careInstructions := some
      { water := some "Weekly", light := some "Full sun",
        soil := some "Loamy", humidity := some "Moderate",
        temperature := some "15-25C" },
    petFriendly := some true,
    funFact := some "Rose hips are rich in vitamin C." }

/-- The JavaScript `JSON.parse` runtime (with the erased cast) observed
at the input `roseJson`; other inputs are modelled as a SyntaxError
throw. -/
def roseParse : String → Except String PlantInfo :=
  fun s =>
    if s = roseJson then Except.ok roseRecord
    else Except.error "SyntaxError: Unexpected token"

/-! # Claims -/

/-- C9: the capability probe is a total function (the embedding of "must
not throw") returning true exactly when the host reports the
"readily" tier; the download-required tier, the unavailable tier, a
missing local-AI feature and a throwing query all yield false. -/
theorem checkLocalAICapability_readily_iff
    (env : Option (Except String Availability)) :
    checkLocalAICapability env = true ↔
      env = some (Except.ok Availability.readily) := by
  cases env with
  | none => simp [checkLocalAICapability]
  | some r =>
    cases r with
    | error e => simp [checkLocalAICapability]
    | ok a => cases a <;> simp [checkLocalAICapability]

/-- Witness for C9: the probe answers true on the "readily" tier. -/
theorem checkLocalAICapability_readily_iff_witness :
    checkLocalAICapability (some (Except.ok Availability.readily)) = true :=
  (checkLocalAICapability_readily_iff
    (some (Except.ok Availability.readily))).mpr rfl

/-- C8: on every exit path of `identifyPlantLocal` the number of
`session.destroy()` calls equals the number of sessions created, and
whenever `window.ai` is present and session creation succeeds exactly
one session is created — so the one-shot session is released exactly
once after a successful generation-and-parse and exactly once when the
prompt or the parse fails, before the failure propagates. -/
theorem identifyPlantLocal_session_released
    (windowAi : Bool) (createSession : Except String Unit)
    (sessionPrompt : String → Except String String)
    (jsonParse : String → Except String PlantInfo)
    (detectedLabels : List String) :
    (identifyPlantLocal windowAi createSession sessionPrompt jsonParse
        detectedLabels).destroys
      = (identifyPlantLocal windowAi createSession sessionPrompt jsonParse
        detectedLabels).sessionsCreated ∧
    (identifyPlantLocal true (Except.ok ()) sessionPrompt jsonParse
        detectedLabels).sessionsCreated = 1 := by
  have key : ∀ (sp : String → Except String String)
      (jp : String → Except String PlantInfo) (ls : List String),
      (identifyPlantLocal true (Except.ok ()) sp jp ls).destroys = 1 ∧
      (identifyPlantLocal true (Except.ok ()) sp jp ls).sessionsCreated = 1 := by
    intro sp jp ls
    rcases hp : sp (localIdPrompt (String.intercalate ", " ls)) with e | raw
    · simp [identifyPlantLocal, hp]
    · rcases hj : jp (stripJsonFences raw) with e2 | d <;>
        simp [identifyPlantLocal, hp, hj]
  constructor
  · cases windowAi with
    | false => rfl
    | true =>
      cases createSession with
      | error e => rfl
      | ok u =>
        rcases key sessionPrompt jsonParse detectedLabels with ⟨h1, h2⟩
        rw [h1, h2]
  · exact (key sessionPrompt jsonParse detectedLabels).2

/-- Witness for C8 at a concrete offline identification whose local
prompt throws. -/
theorem identifyPlantLocal_session_released_witness :
    (identifyPlantLocal true (Except.ok ()) (fun _ => Except.error "boom")
        (fun _ => Except.error "x") ["rose"]).destroys
      = (identifyPlantLocal true (Except.ok ())
        (fun _ => Except.error "boom") (fun _ => Except.error "x")
        ["rose"]).sessionsCreated ∧
    (identifyPlantLocal true (Except.ok ()) (fun _ => Except.error "boom")
        (fun _ => Except.error "x") ["rose"]).sessionsCreated = 1 :=
  identifyPlantLocal_session_released true (Except.ok ())
    (fun _ => Except.error "boom") (fun _ => Except.error "x") ["rose"]

/-- C2: with the device offline, an empty label sequence from the
classifier makes the analysis stage throw "Could not identify object in
offline mode." before the local language model is touched: no local
session is created and no prompt is sent. -/
theorem handleFileSelect_empty_labels_no_local
    (apiKey : Option String) (cloudText : Except String (Option String))
    (cloudJsonParse : String → Except String PlantInfo)
    (base64Content mimeType : String)
    (classifierLoaded : Bool) (classifications : List (List String))
    (windowAi : Bool) (createSession : Except String Unit)
    (sessionPrompt : String → Except String String)
    (localJsonParse : String → Except String PlantInfo)
    (h : classifyImageOffline classifierLoaded classifications
        = Except.ok []) :
    (handleFileSelectAnalyze false apiKey cloudText cloudJsonParse
        base64Content mimeType classifierLoaded classifications windowAi
        createSession sessionPrompt localJsonParse).tryResult
      = Except.error "Could not identify object in offline mode." ∧
    (handleFileSelectAnalyze false apiKey cloudText cloudJsonParse
        base64Content mimeType classifierLoaded classifications windowAi
        createSession sessionPrompt localJsonParse).localSessionsCreated = 0 ∧
    (handleFileSelectAnalyze false apiKey cloudText cloudJsonParse
        base64Content mimeType classifierLoaded classifications windowAi
        createSession sessionPrompt localJsonParse).localPrompts = [] := by
  simp [handleFileSelectAnalyze, h]

/-- Witness for C2 at a concrete offline request whose classifier
reports no category above its confidence floor. -/
theorem handleFileSelect_empty_labels_no_local_witness :
    classifyImageOffline true [] = Except.ok [] ∧
    ((handleFileSelectAnalyze false none (Except.error "x")
        (fun _ => Except.error "x") "" "" true [] true (Except.ok ())
        (fun _ => Except.error "x") (fun _ => Except.error "x")).tryResult
      = Except.error "Could not identify object in offline mode." ∧
    (handleFileSelectAnalyze false none (Except.error "x")
        (fun _ => Except.error "x") "" "" true [] true (Except.ok ())
        (fun _ => Except.error "x")
        (fun _ => Except.error "x")).localSessionsCreated = 0 ∧
    (handleFileSelectAnalyze false none (Except.error "x")
        (fun _ => Except.error "x") "" "" true [] true (Except.ok ())
        (fun _ => Except.error "x")
        (fun _ => Except.error "x")).localPrompts = []) :=
  ⟨rfl, handleFileSelect_empty_labels_no_local none (Except.error "x")
    (fun _ => Except.error "x") "" "" true [] true (Except.ok ())
    (fun _ => Except.error "x") (fun _ => Except.error "x") rfl⟩

/-- C6: the identification backend is selected at request time by
connectivity alone: online requests invoke the cloud strategy exactly
once and never touch the offline classifier or the local model; offline
requests invoke the classifier exactly once and never the cloud. -/
theorem handleFileSelect_mode_policy (isOnline : Bool)
    (apiKey : Option String) (cloudText : Except String (Option String))
    (cloudJsonParse : String → Except String PlantInfo)
    (base64Content mimeType : String)
    (classifierLoaded : Bool) (classifications : List (List String))
    (windowAi : Bool) (createSession : Except String Unit)
    (sessionPrompt : String → Except String String)
    (localJsonParse : String → Except String PlantInfo) :
    ((handleFileSelectAnalyze isOnline apiKey cloudText cloudJsonParse
        base64Content mimeType classifierLoaded classifications windowAi
        createSession sessionPrompt localJsonParse).cloudCalls
      = if isOnline then 1 else 0) ∧
    ((handleFileSelectAnalyze isOnline apiKey cloudText cloudJsonParse
        base64Content mimeType classifierLoaded classifications windowAi
        createSession sessionPrompt localJsonParse).classifyCalls
      = if isOnline then 0 else 1) ∧
    (if isOnline then
      (handleFileSelectAnalyze isOnline apiKey cloudText cloudJsonParse
          base64Content mimeType classifierLoaded classifications windowAi
          createSession sessionPrompt localJsonParse).localSessionsCreated = 0 ∧
      (handleFileSelectAnalyze isOnline apiKey cloudText cloudJsonParse
          base64Content mimeType classifierLoaded classifications windowAi
          createSession sessionPrompt localJsonParse).localPrompts = []
    else
      (handleFileSelectAnalyze isOnline apiKey cloudText cloudJsonParse
          base64Content mimeType classifierLoaded classifications windowAi
          createSession sessionPrompt localJsonParse).cloudCalls = 0) := by
  cases isOnline with
  | true =>
    rcases hc : identifyPlant apiKey cloudText cloudJsonParse base64Content
        mimeType with e | d <;>
      simp [handleFileSelectAnalyze, hc]
  | false =>
    rcases hcl : classifyImageOffline classifierLoaded classifications
        with e | labels
    · simp [handleFileSelectAnalyze, hcl]
    · by_cases hl : labels.length = 0
      · simp [handleFileSelectAnalyze, hcl, hl]
      · rcases hr : (identifyPlantLocal windowAi createSession sessionPrompt
            localJsonParse labels).result with e2 | d <;>
          simp [handleFileSelectAnalyze, hcl, hl, hr]

/-- Witness for C6 at a concrete online request: the cloud strategy is
invoked once. -/
theorem handleFileSelect_mode_policy_witness :
    (handleFileSelectAnalyze true none (Except.error "x")
        (fun _ => Except.error "x") "" "" true [] true (Except.ok ())
        (fun _ => Except.error "x") (fun _ => Except.error "x")).cloudCalls
      = 1 := by
  have h := handleFileSelect_mode_policy true none (Except.error "x")
    (fun _ => Except.error "x") "" "" true [] true (Except.ok ())
    (fun _ => Except.error "x") (fun _ => Except.error "x")
  simpa using h.1

/-- C5: while online with the local model ready and a live session, a
chat send whose local prompt succeeds uses the local strategy and never
invokes the cloud chat strategy: exactly one local prompt, zero cloud
sends, and the local reply is the appended assistant turn. -/
theorem handleSend_local_preferred_no_cloud
    (input : String) (session : String → Except String String)
    (apiKey : Option String) (cloudReply : Except String (Option String))
    (history : List ChatMessage) (tUser tModel : Nat) (r : String)
    (hin : jsTrim input ≠ "")
    (hs : session input = Except.ok r) :
    handleSend input false true true (some session) apiKey cloudReply
        history tUser tModel
      = { appended := [{ role := .user, text := input, timestamp := tUser },
                       { role := .model, text := r, timestamp := tModel }],
          localPromptsSent := [input], cloudSends := [] } := by
  simp [handleSend, hin, hs]

/-- Witness for C5 at a concrete online send with a working local
session. -/
theorem handleSend_local_preferred_no_cloud_witness :
    jsTrim "hi" ≠ "" ∧
    handleSend "hi" false true true (some fun _ => Except.ok "Water weekly.")
        (some "key") (Except.ok (some "cloud")) [] 3 4
      = { appended := [{ role := .user, text := "hi", timestamp := 3 },
                       { role := .model, text := "Water weekly.", timestamp := 4 }],
          localPromptsSent := ["hi"], cloudSends := [] } :=
  ⟨by decide, handleSend_local_preferred_no_cloud "hi"
    (fun _ => Except.ok "Water weekly.") (some "key")
    (Except.ok (some "cloud")) [] 3 4 "Water weekly." (by decide) rfl⟩

/-- C4: when the live local session throws during an online chat send
and the cloud strategy then replies, the send retries via the cloud
exactly once — with the pre-send history and the same message — and
appends exactly one assistant turn carrying the cloud reply; no error
is surfaced. -/
theorem handleSend_local_failure_cloud_retry_once
    (input e : String) (session : String → Except String String)
    (apiKey : Option String) (cloudReply : Except String (Option String))
    (history : List ChatMessage) (tUser tModel : Nat) (r : String)
    (hin : jsTrim input ≠ "")
    (hs : session input = Except.error e)
    (hc : sendChatMessage apiKey cloudReply = Except.ok r) :
    handleSend input false true true (some session) apiKey cloudReply
        history tUser tModel
      = { appended := [{ role := .user, text := input, timestamp := tUser },
                       { role := .model, text := r, timestamp := tModel }],
          localPromptsSent := [input], cloudSends := [(history, input)] } := by
  simp [handleSend, hin, hs, hc]

/-- Witness for C4 at a concrete online send whose local session throws
and whose cloud strategy answers. -/
theorem handleSend_local_failure_cloud_retry_once_witness :
    jsTrim "hi" ≠ "" ∧
    handleSend "hi" false true true (some fun _ => Except.error "boom")
        (some "key") (Except.ok (some "Cloud answer")) [] 3 4
      = { appended := [{ role := .user, text := "hi", timestamp := 3 },
                       { role := .model, text := "Cloud answer", timestamp := 4 }],
          localPromptsSent := ["hi"], cloudSends := [([], "hi")] } :=
  ⟨by decide, handleSend_local_failure_cloud_retry_once "hi" "boom"
    (fun _ => Except.error "boom") (some "key")
    (Except.ok (some "Cloud answer")) [] 3 4 "Cloud answer" (by decide)
    rfl rfl⟩

/-- C3 counterexample: a concrete chat send while offline with the local
capability flag down — non-blank input, not loading — appends nothing at
all: no static offline-unavailable assistant reply is produced, the
handler returns early. -/
theorem handleSend_offline_unready_silent_cex :
    handleSend "Help" false false false none none (Except.ok none) [] 0 1
      = { appended := [], localPromptsSent := [], cloudSends := [] } := rfl

/-- C3 as amended: a chat send while offline with the local capability
flag down returns early and appends nothing (the UI disables the input
in that state); the static offline-unavailable reply is appended only in
the adjacent state where the capability flag is up but no live session
exists. -/
theorem handleSend_offline_unready_behavior
    (input : String) (localSession : Option (String → Except String String))
    (apiKey : Option String) (cloudReply : Except String (Option String))
    (history : List ChatMessage) (tUser tModel : Nat)
    (hin : jsTrim input ≠ "") :
    handleSend input false false false localSession apiKey cloudReply
        history tUser tModel
      = { appended := [], localPromptsSent := [], cloudSends := [] } ∧
    (handleSend input false false true none apiKey cloudReply history
        tUser tModel).appended
      = [{ role := .user, text := input, timestamp := tUser },
         { role := .model, text := noCloudOfflineMsg, timestamp := tModel }] := by
  constructor
  · simp [handleSend]
  · simp [handleSend, hin]

/-- Witness for the amended C3 at a concrete offline send. -/
theorem handleSend_offline_unready_behavior_witness :
    jsTrim "Help" ≠ "" ∧
    (handleSend "Help" false false false none none (Except.ok none) [] 0 1
      = { appended := [], localPromptsSent := [], cloudSends := [] } ∧
    (handleSend "Help" false false true none none (Except.ok none) [] 0 1).appended
      = [{ role := .user, text := "Help", timestamp := 0 },
         { role := .model, text := noCloudOfflineMsg, timestamp := 1 }]) :=
  ⟨by decide, handleSend_offline_unready_behavior "Help" none none
    (Except.ok none) [] 0 1 (by decide)⟩

set_option maxRecDepth 40000 in
/-- C7: given the labels ["rose", "flower", "plant"] and a local model
whose raw output is a valid plant-record JSON wrapped in Markdown
code fences, the offline strategy strips the fences before parsing and
returns exactly the record that parsing the unfenced JSON yields. -/
theorem identifyPlantLocal_strips_fences
    (jsonParse : String → Except String PlantInfo) (rec : PlantInfo)
    (h : jsonParse roseJson = Except.ok rec) :
    stripJsonFences fencedRoseJson = roseJson ∧
    (identifyPlantLocal true (Except.ok ())
        (fun _ => Except.ok fencedRoseJson) jsonParse
        ["rose", "flower", "plant"]).result = Except.ok rec := by
  have hs : stripJsonFences fencedRoseJson = roseJson := by rfl
  exact ⟨hs, by simp [identifyPlantLocal, hs, h]⟩

set_option maxRecDepth 40000 in
/-- Witness for C7 with the JSON.parse runtime observed at `roseJson`. -/
theorem identifyPlantLocal_strips_fences_witness :
    roseParse roseJson = Except.ok roseRecord ∧
    (stripJsonFences fencedRoseJson = roseJson ∧
     (identifyPlantLocal true (Except.ok ())
        (fun _ => Except.ok fencedRoseJson) roseParse
        ["rose", "flower", "plant"]).result = Except.ok roseRecord) :=
  ⟨rfl, identifyPlantLocal_strips_fences roseParse roseRecord rfl⟩

/-- C1 counterexample: a concrete successful offline identification
returning a record with every field absent. The local model returns the
valid JSON text of the empty object, JSON.parse yields an object with no
properties, and `identifyPlantLocal` returns it unchanged — there is no
post-hoc validation, and the all-fields-present invariant fails on a
successful return. -/
theorem identifyPlantLocal_no_post_hoc_validation_cex :
    (identifyPlantLocal true (Except.ok ())
        (fun _ => Except.ok "\x7b\x7d") jsonParseEmptyObj ["rose"]).result
      = Except.ok emptyPlantInfo ∧
    emptyPlantInfo.complete = false := ⟨rfl, rfl⟩

/-- C1 as amended: on the cloud path the request schema marks all six
top-level fields and all five careInstructions sub-fields required,
delegating presence enforcement to the provider structured-output
contract; the offline local-generation strategy performs no post-hoc
validation — whenever its prompt and parse succeed it returns the parsed
object exactly as the parse produced it, complete or not. -/
theorem identifyPlantLocal_unvalidated_cloud_schema
    (sessionPrompt : String → Except String String)
    (jsonParse : String → Except String PlantInfo)
    (detectedLabels : List String) (raw : String) (data : PlantInfo)
    (hp : sessionPrompt
        (localIdPrompt (String.intercalate ", " detectedLabels))
      = Except.ok raw)
    (hj : jsonParse (stripJsonFences raw) = Except.ok data) :
    plantResponseSchema.requiredFields
      = ["commonName", "scientificName", "description", "careInstructions",
         "petFriendly", "funFact"] ∧
    careInstructionsSchema.requiredFields
      = ["water", "light", "soil", "humidity", "temperature"] ∧
    (identifyPlantLocal true (Except.ok ()) sessionPrompt jsonParse
        detectedLabels).result = Except.ok data := by
  exact ⟨rfl, rfl, by simp [identifyPlantLocal, hp, hj]⟩

/-- Witness for the amended C1: the unvalidated pass-through observed at
the empty-object parse. -/
theorem identifyPlantLocal_unvalidated_cloud_schema_witness :
    (fun _ => Except.ok "\x7b\x7d" : String → Except String String)
        (localIdPrompt (String.intercalate ", " ["rose"]))
      = Except.ok "\x7b\x7d" ∧
    jsonParseEmptyObj (stripJsonFences "\x7b\x7d")
      = Except.ok emptyPlantInfo ∧
    (plantResponseSchema.requiredFields
      = ["commonName", "scientificName", "description", "careInstructions",
         "petFriendly", "funFact"] ∧
    careInstructionsSchema.requiredFields
      = ["water", "light", "soil", "humidity", "temperature"] ∧
    (identifyPlantLocal true (Except.ok ()) (fun _ => Except.ok "\x7b\x7d")
        jsonParseEmptyObj ["rose"]).result = Except.ok emptyPlantInfo) :=
  ⟨rfl, rfl, identifyPlantLocal_unvalidated_cloud_schema
    (fun _ => Except.ok "\x7b\x7d") jsonParseEmptyObj ["rose"] "\x7b\x7d"
    emptyPlantInfo rfl rfl⟩

end FloraLens
